import Mathlib

/-!
Shallow embedding of the chat delivery core of pureheroky/pure-social.

The definitions below are translated from:
  - app/services/chat/services.py   (get_friendship_status, get_or_create_chat,
    send_message, upload_media, get_messages, mark_as_read, require_chat_by_id)
  - app/utils/websocket_manager.py  (ConnectionManager.send_personal, is_online)
  - app/db/models/{chat,message,friendship}.py (the data model)

Database rows are Lean structures, the SQLAlchemy session is an explicit
`ChatState` threaded through each operation, timestamps are `Nat`, and raised
`HTTPException`s become `Except` errors.  External effects (redis probe,
websocket writes, blob uploads) are modelled by explicit outcome parameters
and effect traces.
-/

namespace PureSocial

/-- Status enum of app/db/models/friendship.py. -/
inductive FriendshipStatus
  | PENDING
  | ACCEPTED
  | REJECTED
  | BLOCKED
deriving DecidableEq, Repr

/-- Status enum of app/db/models/message.py. -/
inductive MessageStatus
  | SENT
  | DELIVERED
  | READ
deriving DecidableEq, Repr

/-- Position of a status in the total order SENT < DELIVERED < READ. -/
def statusRank : MessageStatus → Nat
  | MessageStatus.SENT => 0
  | MessageStatus.DELIVERED => 1
  | MessageStatus.READ => 2

/-- Row of the friendship table (the fields the chat service reads). -/
structure Friendship where
  user_id : Nat
  friend_id : Nat
  status : FriendshipStatus
deriving DecidableEq, Repr

/-- Row of the chats table. -/
structure Chat where
  id : Nat
  user1_id : Nat
  user2_id : Nat
  created_at : Nat
deriving DecidableEq, Repr

/-- Row of the messages table. -/
structure Message where
  id : Nat
  chat_id : Nat
  sender_id : Nat
  content : String
  type : String
  reply_to_id : Option Nat
  status : MessageStatus
  created_at : Nat
  delivered_at : Option Nat
  read_at : Option Nat
deriving DecidableEq, Repr

/-- Errors escaping a service call: an HTTPException, or a raw Python
exception propagating uncaught (for example a redis failure in is_online). -/
inductive PyErr
  | http (status_code : Nat) (detail : String)
  | uncaught
deriving DecidableEq, Repr

/-- Database plus the module-level friendship cache of services.py.
`next_chat_id` and `next_msg_id` model the autoincrement primary keys. -/
structure ChatState where
  chats : List Chat
  messages : List Message
  friendships : List Friendship
  cache : List ((Nat × Nat) × FriendshipStatus)
  next_chat_id : Nat
  next_msg_id : Nat
deriving DecidableEq, Repr

/-- Canonical cache key: `tuple(sorted([user1_id, user2_id]))`. -/
def pairKey (a b : Nat) : Nat × Nat :=
  if a ≤ b then (a, b) else (b, a)

/-- Embedding of `get_friendship_status` (services.py lines 42-60): consult the
module-level `friendship_cache` first; on a miss query the friendship table in
either orientation, raise 403 unless the row exists with status ACCEPTED, and
cache the accepted status under the canonical key. -/
def get_friendship_status (user1_id user2_id : Nat) (st : ChatState) :
    Except PyErr (FriendshipStatus × ChatState) :=
  match st.cache.lookup (pairKey user1_id user2_id) with
  | some s => Except.ok (s, st)
  | none =>
    match st.friendships.find? (fun f =>
        (f.user_id == user1_id && f.friend_id == user2_id) ||
        (f.user_id == user2_id && f.friend_id == user1_id)) with
    | none => Except.error (PyErr.http 403 "Users are not friends")
    | some f =>
      if f.status == FriendshipStatus.ACCEPTED then
        Except.ok (f.status,
          { st with cache := (pairKey user1_id user2_id, f.status) :: st.cache })
      else
        Except.error (PyErr.http 403 "Users are not friends")

/-- The smaller id after the swap `if user1_id > user2_id` of services.py line 66. -/
def lowOf (user1_id user2_id : Nat) : Nat :=
  if user1_id > user2_id then user2_id else user1_id

/-- The larger id after the swap `if user1_id > user2_id` of services.py line 66. -/
def highOf (user1_id user2_id : Nat) : Nat :=
  if user1_id > user2_id then user1_id else user2_id

/-- Embedding of `get_or_create_chat` (services.py lines 63-78): friendship
gate, canonical swap `if user1_id > user2_id`, lookup by the canonical pair,
create-and-flush when absent. -/
def get_or_create_chat (user1_id user2_id : Nat) (st : ChatState) (now : Nat) :
    Except PyErr (Chat × ChatState) :=
  match get_friendship_status user1_id user2_id st with
  | Except.error e => Except.error e
  | Except.ok (_, st1) =>
    match st1.chats.find? (fun c =>
        c.user1_id == lowOf user1_id user2_id &&
        c.user2_id == highOf user1_id user2_id) with
    | some chat => Except.ok (chat, st1)
    | none =>
      Except.ok
        ({ id := st1.next_chat_id, user1_id := lowOf user1_id user2_id,
           user2_id := highOf user1_id user2_id, created_at := now },
         { st1 with
            chats := st1.chats ++
              [{ id := st1.next_chat_id, user1_id := lowOf user1_id user2_id,
                 user2_id := highOf user1_id user2_id, created_at := now }],
            next_chat_id := st1.next_chat_id + 1 })

/-- Embedding of `require_chat_by_id` (services.py lines 306-319): find the
chat row whose id matches and whose user1 or user2 is the caller; 404
"Chat not found" covers both a missing chat and a non-member caller. -/
def require_chat_by_id (chat_id user_id : Nat) (st : ChatState) :
    Except PyErr (Chat × ChatState) :=
  match st.chats.find? (fun c =>
      (c.user1_id == user_id && c.id == chat_id) ||
      (c.user2_id == user_id && c.id == chat_id)) with
  | none => Except.error (PyErr.http 404 "Chat not found")
  | some chat =>
    match get_friendship_status chat.user1_id chat.user2_id st with
    | Except.error e => Except.error e
    | Except.ok (_, st1) => Except.ok (chat, st1)

/-- Descending-by-created_at relation implementing `order_by(created_at.desc())`. -/
def msgGE (a b : Message) : Prop :=
  b.created_at ≤ a.created_at

instance : DecidableRel msgGE := fun a b =>
  inferInstanceAs (Decidable (b.created_at ≤ a.created_at))

instance : IsTotal Message msgGE :=
  ⟨fun a b => (Nat.le_total b.created_at a.created_at).elim Or.inl Or.inr⟩

instance : IsTrans Message msgGE :=
  ⟨fun _ _ _ hab hbc => Nat.le_trans hbc hab⟩

/-- Rows returned by `order_by(Message.created_at.desc())`. -/
def sortDesc (l : List Message) : List Message :=
  l.insertionSort msgGE

/-- Embedding of `get_messages` (services.py lines 245-266): membership check,
filter by chat, the cursor filter guarded by Python truthiness
(`if before_id:` skips the filter for both None and 0), query newest-first,
take `limit`, then `messages.reverse()` for ascending display order. -/
def get_messages (chat_id user_id : Nat) (st : ChatState) (limit : Nat)
    (before_id : Option Nat) : Except PyErr (List Message) :=
  match require_chat_by_id chat_id user_id st with
  | Except.error e => Except.error e
  | Except.ok (_, _) =>
    Except.ok (((sortDesc
      (match before_id with
       | some b =>
         if b == 0 then st.messages.filter (fun m => m.chat_id == chat_id)
         else (st.messages.filter (fun m => m.chat_id == chat_id)).filter
           (fun m => decide (m.id < b))
       | none => st.messages.filter (fun m => m.chat_id == chat_id))).take
        limit).reverse)

/-- The other participant of a chat, as computed at services.py line 271. -/
def otherOf (chat : Chat) (user_id : Nat) : Nat :=
  if chat.user2_id == user_id then chat.user1_id else chat.user2_id

/-- Selection predicate of the `mark_as_read` query (services.py lines
273-281): same chat, authored by the other participant, status not READ. -/
def readTarget (chat_id sender_id : Nat) (m : Message) : Bool :=
  m.chat_id == chat_id && m.sender_id == sender_id &&
    !(m.status == MessageStatus.READ)

/-- The per-row read transition of `mark_as_read` (services.py lines 288-290). -/
def stampRead (now : Nat) (m : Message) : Message :=
  { m with status := MessageStatus.READ, read_at := some now }

/-- Embedding of `mark_as_read` (services.py lines 269-303): membership check,
select the other participant's unread messages, early return when none, stamp
READ and `read_at` on each selected row and flush.  The per-message
`send_personal` notifications are guarded by try/except in the source and have
no effect on the returned state. -/
def mark_as_read (chat_id user_id : Nat) (st : ChatState) (now : Nat) :
    Except PyErr Unit × ChatState :=
  match require_chat_by_id chat_id user_id st with
  | Except.error e => (Except.error e, st)
  | Except.ok (chat, st1) =>
    if (st1.messages.filter (readTarget chat_id (otherOf chat user_id))).isEmpty then
      (Except.ok (), st1)
    else
      (Except.ok (),
        { st1 with messages := st1.messages.map (fun m =>
            if readTarget chat_id (otherOf chat user_id) m then stampRead now m
            else m) })

/-- The Message row constructed inside `send_message` (services.py lines 91-99). -/
def new_message (content mtype : String) (reply_to_id : Option Nat)
    (chat_id sender_id mid now : Nat) : Message :=
  { id := mid, chat_id := chat_id, sender_id := sender_id, content := content,
    type := mtype, reply_to_id := reply_to_id, status := MessageStatus.SENT,
    created_at := now, delivered_at := none, read_at := none }

/-- The `update_status` closure inside `send_message` (services.py lines
126-133): fetch the row by id and, when found, set status DELIVERED and stamp
`delivered_at` — unconditionally, with no check of the current status. -/
def update_status_fn (msgs : List Message) (mid now : Nat) : List Message :=
  msgs.map (fun m =>
    if m.id == mid then
      { m with status := MessageStatus.DELIVERED, delivered_at := some now }
    else m)

/-- Outcomes of the external effects reached by one `send_message` call. -/
structure SendFx where
  persistOk : Bool
  pushOk : Bool
  wsEcho : Option Bool
  probe : Except Unit Bool
  updateOk : Bool
deriving Repr

/-- State of the store after `db.commit()` persists the new SENT message. -/
def persistedState (st1 : ChatState) (msg : Message) : ChatState :=
  { st1 with messages := st1.messages ++ [msg], next_msg_id := st1.next_msg_id + 1 }

/-- Embedding of `send_message` (services.py lines 81-152).  Control flow of
the source: resolve the chat (gate included); persist the new SENT message via
`execute_db_operation` (commit on success, rollback of the uncommitted chat
and message rows on failure, mapped to a 500); push to the receiver through
`manager.send_personal`, whose internal try/except swallows every failure;
echo on the sender's websocket when one was passed (unguarded — a failure
propagates); probe `manager.is_online` (unguarded — a redis failure
propagates); when online, run the `update_status` transition inside a
try/except so its failure only logs.  The function returns the response
snapshot taken before the delivered upgrade, exactly as the source returns
`msg` validated at creation time. -/
def send_message (content mtype : String) (reply_to_id : Option Nat)
    (sender_id receiver_id : Nat) (st : ChatState) (fx : SendFx) (now : Nat) :
    Except PyErr Message × ChatState :=
  match get_or_create_chat sender_id receiver_id st now with
  | Except.error e => (Except.error e, st)
  | Except.ok (chat, st1) =>
    if fx.persistOk then
      if fx.wsEcho == some false then
        (Except.error PyErr.uncaught,
          persistedState st1
            (new_message content mtype reply_to_id chat.id sender_id st1.next_msg_id now))
      else
        match fx.probe with
        | Except.error _ =>
          (Except.error PyErr.uncaught,
            persistedState st1
              (new_message content mtype reply_to_id chat.id sender_id st1.next_msg_id now))
        | Except.ok online =>
          if online && fx.updateOk then
            (Except.ok
              (new_message content mtype reply_to_id chat.id sender_id st1.next_msg_id now),
             { (persistedState st1
                 (new_message content mtype reply_to_id chat.id sender_id st1.next_msg_id now)) with
               messages := update_status_fn
                 (persistedState st1
                   (new_message content mtype reply_to_id chat.id sender_id st1.next_msg_id now)).messages
                 st1.next_msg_id now })
          else
            (Except.ok
              (new_message content mtype reply_to_id chat.id sender_id st1.next_msg_id now),
             persistedState st1
               (new_message content mtype reply_to_id chat.id sender_id st1.next_msg_id now))
    else
      (Except.error (PyErr.http 500 "Internal server error"),
        { st1 with chats := st.chats, next_chat_id := st.next_chat_id,
                   messages := st.messages, next_msg_id := st.next_msg_id })

/-- What `ConnectionManager.send_personal` did on a call. -/
inductive SendOutcome
  | localWrite
  | published
  | raisedLocal
  | raisedPublish
deriving DecidableEq, Repr

/-- Embedding of `ConnectionManager.send_personal` (websocket_manager.py lines
80-91): inside one try/except, write directly when the user has a live local
connection, otherwise publish on the user's redis channel; both successful
paths `return True`; any exception is caught and `return False`.  `writeOk`
and `publishOk` say whether the attempted transport call raises. -/
def send_personal (active : List Nat) (user_id : Nat) (writeOk publishOk : Bool) :
    Bool × SendOutcome :=
  if user_id ∈ active then
    if writeOk then (true, SendOutcome.localWrite)
    else (false, SendOutcome.raisedLocal)
  else
    if publishOk then (true, SendOutcome.published)
    else (false, SendOutcome.raisedPublish)

/-- Observable steps of one `upload_media` call, in order. -/
inductive UpStep
  | chatLookup
  | fileRead
  | blobUpload
  | signUrl
deriving DecidableEq, Repr

/-- Allowed image extensions (services.py line 30). -/
def ALLOWED_IMAGE_EXT : List String := [".jpg", ".png", ".webp", ".jpeg"]

/-- Allowed video extensions (services.py line 31). -/
def ALLOWED_VIDEO_EXT : List String := [".mp4", ".avi", ".mov"]

/-- Extension extraction of services.py line 177:
`f".{file.filename.split(".")[-1].lower()}" if file.filename else ""`. -/
def fileExtOf (filename : Option String) : String :=
  match filename with
  | some fn => "." ++ ((fn.splitOn ".").reverse.headD "").toLower
  | none => ""

/-- Embedding of `upload_media` (services.py lines 155-193), returning the
result together with the ordered trace of external steps performed.  The
source checks `file.size > 10 * 1024 * 1024` first, then resolves the chat
via `require_chat_by_id`, then dispatches on media type, validates the
extension, reads the file, uploads the bytes and signs a URL. -/
def upload_media (fileSize : Nat) (filename : Option String)
    (chat_id sender_id : Nat) (media_type : String) (st : ChatState) :
    Except PyErr String × List UpStep :=
  if fileSize > 10 * 1024 * 1024 then
    (Except.error (PyErr.http 400 "File too large (max 10MB)"), [])
  else
    match require_chat_by_id chat_id sender_id st with
    | Except.error e => (Except.error e, [UpStep.chatLookup])
    | Except.ok (_, _) =>
      let allowed :=
        if media_type == "image" then some ALLOWED_IMAGE_EXT
        else if media_type == "video" then some ALLOWED_VIDEO_EXT
        else none
      match allowed with
      | none => (Except.error (PyErr.http 400 "Invalid media type"), [UpStep.chatLookup])
      | some exts =>
        let ext := fileExtOf filename
        if exts.contains ext then
          (Except.ok "signed-url",
            [UpStep.chatLookup, UpStep.fileRead, UpStep.blobUpload, UpStep.signUrl])
        else
          (Except.error (PyErr.http 400 "Unsupported file format"), [UpStep.chatLookup])

/-! ## Helper lemmas about the friendship gate and chat lookup -/

theorem get_friendship_status_fields {u1 u2 : Nat} {st : ChatState}
    {s : FriendshipStatus} {st1 : ChatState}
    (h : get_friendship_status u1 u2 st = Except.ok (s, st1)) :
    st1.chats = st.chats ∧ st1.messages = st.messages ∧
    st1.friendships = st.friendships ∧ st1.next_chat_id = st.next_chat_id ∧
    st1.next_msg_id = st.next_msg_id := by
  unfold get_friendship_status at h
  split at h
  · simp only [Except.ok.injEq, Prod.mk.injEq] at h
    obtain ⟨-, h2⟩ := h
    subst h2
    exact ⟨rfl, rfl, rfl, rfl, rfl⟩
  · split at h
    · exact absurd h (by simp)
    · split at h
      · simp only [Except.ok.injEq, Prod.mk.injEq] at h
        obtain ⟨-, h2⟩ := h
        subst h2
        exact ⟨rfl, rfl, rfl, rfl, rfl⟩
      · exact absurd h (by simp)

theorem get_friendship_status_cache_some {u1 u2 : Nat} {st : ChatState}
    {s : FriendshipStatus}
    (h : st.cache.lookup (pairKey u1 u2) = some s) :
    get_friendship_status u1 u2 st = Except.ok (s, st) := by
  unfold get_friendship_status
  rw [h]

theorem get_friendship_status_ok_cache {u1 u2 : Nat} {st st1 : ChatState}
    {s : FriendshipStatus}
    (h : get_friendship_status u1 u2 st = Except.ok (s, st1)) :
    st1.cache.lookup (pairKey u1 u2) = some s := by
  unfold get_friendship_status at h
  split at h
  case _ s0 hl =>
    simp only [Except.ok.injEq, Prod.mk.injEq] at h
    obtain ⟨h1, h2⟩ := h
    subst h1; subst h2
    exact hl
  case _ hl =>
    split at h
    · exact absurd h (by simp)
    · split at h
      · simp only [Except.ok.injEq, Prod.mk.injEq] at h
        obtain ⟨h1, h2⟩ := h
        subst h1; subst h2
        exact List.lookup_cons_self
      · exact absurd h (by simp)

theorem get_friendship_status_stable {u1 u2 : Nat} {st st1 : ChatState}
    {s : FriendshipStatus}
    (h : get_friendship_status u1 u2 st = Except.ok (s, st1)) :
    get_friendship_status u1 u2 st1 = Except.ok (s, st1) :=
  get_friendship_status_cache_some (get_friendship_status_ok_cache h)

theorem require_chat_by_id_fields {chat_id user_id : Nat} {st : ChatState}
    {chat : Chat} {st1 : ChatState}
    (h : require_chat_by_id chat_id user_id st = Except.ok (chat, st1)) :
    st1.chats = st.chats ∧ st1.messages = st.messages ∧
    st1.friendships = st.friendships ∧ st1.next_chat_id = st.next_chat_id ∧
    st1.next_msg_id = st.next_msg_id ∧
    st.chats.find? (fun c =>
      (c.user1_id == user_id && c.id == chat_id) ||
      (c.user2_id == user_id && c.id == chat_id)) = some chat ∧
    ∃ s, get_friendship_status chat.user1_id chat.user2_id st = Except.ok (s, st1) := by
  unfold require_chat_by_id at h
  split at h
  · exact absurd h (by simp)
  case _ c hfind =>
    split at h
    · exact absurd h (by simp)
    case _ s0 st0 hgfs =>
      simp only [Except.ok.injEq, Prod.mk.injEq] at h
      obtain ⟨h1, h2⟩ := h
      subst h1; subst h2
      obtain ⟨f1, f2, f3, f4, f5⟩ := get_friendship_status_fields hgfs
      exact ⟨f1, f2, f3, f4, f5, hfind, s0, hgfs⟩

theorem mark_as_read_ok {chat_id user_id : Nat} {st : ChatState} {chat : Chat}
    {stc : ChatState}
    (hreq : require_chat_by_id chat_id user_id st = Except.ok (chat, stc))
    (now : Nat) :
    mark_as_read chat_id user_id st now =
      if (stc.messages.filter (readTarget chat_id (otherOf chat user_id))).isEmpty then
        (Except.ok (), stc)
      else
        (Except.ok (), { stc with messages := stc.messages.map (fun m =>
            if readTarget chat_id (otherOf chat user_id) m then stampRead now m
            else m) }) := by
  unfold mark_as_read
  rw [hreq]

theorem require_chat_by_id_after {chat_id user_id : Nat} {st : ChatState}
    {chat : Chat} {st1 st2 : ChatState}
    (h : require_chat_by_id chat_id user_id st = Except.ok (chat, st1))
    (hch : st2.chats = st.chats) (hca : st2.cache = st1.cache) :
    require_chat_by_id chat_id user_id st2 = Except.ok (chat, st2) := by
  obtain ⟨-, -, -, -, -, hfind, s, hgfs⟩ := require_chat_by_id_fields h
  have hlook : st2.cache.lookup (pairKey chat.user1_id chat.user2_id) = some s := by
    rw [hca]
    exact get_friendship_status_ok_cache hgfs
  unfold require_chat_by_id
  rw [hch, hfind]
  simp only [get_friendship_status_cache_some hlook]

/-! ## C9: the media size limit is checked before any other step -/

/-- Claim C9: every upload whose file size exceeds 10 MiB is rejected with the
client-visible 400 "File too large (max 10MB)" error, and the rejection
happens before the chat-membership lookup, the file read, and the blob upload:
the step trace of the call is empty. -/
theorem c9_size_check_first (fileSize : Nat) (filename : Option String)
    (chat_id sender_id : Nat) (media_type : String) (st : ChatState)
    (h : fileSize > 10 * 1024 * 1024) :
    upload_media fileSize filename chat_id sender_id media_type st =
      (Except.error (PyErr.http 400 "File too large (max 10MB)"), []) := by
  unfold upload_media
  rw [if_pos h]

/-- Witness for C9 at the smallest oversize file (10 MiB plus one byte). -/
theorem c9_size_check_first_witness :
    upload_media (10 * 1024 * 1024 + 1) (some "a.jpg") 1 1 "image"
        { chats := [], messages := [], friendships := [], cache := [],
          next_chat_id := 1, next_msg_id := 1 } =
      (Except.error (PyErr.http 400 "File too large (max 10MB)"), []) :=
  c9_size_check_first (10 * 1024 * 1024 + 1) (some "a.jpg") 1 1 "image" _
    (by omega)

/-! ## C10: missing chat and non-member chat raise the identical 404 -/

/-- Claim C10: whether no chat with the requested id exists or the chat exists
but the caller is not one of its two participants, `require_chat_by_id` (and
the operations built on it: message listing, mark-as-read, and media upload
once the size check passed) fails with the identical 404 "Chat not found"
error, so a non-member cannot tell an excluded chat from a nonexistent one. -/
theorem c10_uniform_not_found (chat_id user_id : Nat) (st : ChatState)
    (h : (∀ c ∈ st.chats, c.id ≠ chat_id) ∨
         (∀ c ∈ st.chats, c.id = chat_id →
            user_id ≠ c.user1_id ∧ user_id ≠ c.user2_id)) :
    require_chat_by_id chat_id user_id st =
      Except.error (PyErr.http 404 "Chat not found") ∧
    (∀ limit before_id, get_messages chat_id user_id st limit before_id =
      Except.error (PyErr.http 404 "Chat not found")) ∧
    (∀ now, mark_as_read chat_id user_id st now =
      (Except.error (PyErr.http 404 "Chat not found"), st)) ∧
    (∀ fileSize filename media_type, ¬ fileSize > 10 * 1024 * 1024 →
      (upload_media fileSize filename chat_id user_id media_type st).1 =
        Except.error (PyErr.http 404 "Chat not found")) := by
  have hfind : st.chats.find? (fun c =>
      (c.user1_id == user_id && c.id == chat_id) ||
      (c.user2_id == user_id && c.id == chat_id)) = none := by
    rw [List.find?_eq_none]
    intro c hc
    simp only [Bool.or_eq_true, Bool.and_eq_true, beq_iff_eq, not_or, not_and]
    rcases h with h1 | h2
    · exact ⟨fun _ => h1 c hc, fun _ => h1 c hc⟩
    · exact ⟨fun hu hid => (h2 c hc hid).1 hu.symm,
             fun hu hid => (h2 c hc hid).2 hu.symm⟩
  have hreq : require_chat_by_id chat_id user_id st =
      Except.error (PyErr.http 404 "Chat not found") := by
    unfold require_chat_by_id
    rw [hfind]
  refine ⟨hreq, ?_, ?_, ?_⟩
  · intro limit before_id
    unfold get_messages
    rw [hreq]
  · intro now
    unfold mark_as_read
    rw [hreq]
  · intro fileSize filename media_type hle
    unfold upload_media
    rw [if_neg hle, hreq]

/-- Witness for C10: with one chat between users 1 and 2, the outsider user 3
asking for chat 1 and user 1 asking for the nonexistent chat 7 receive the
same error value. -/
theorem c10_uniform_not_found_witness :
    require_chat_by_id 1 3
        { chats := [{ id := 1, user1_id := 1, user2_id := 2, created_at := 0 }],
          messages := [], friendships := [], cache := [],
          next_chat_id := 2, next_msg_id := 1 } =
      Except.error (PyErr.http 404 "Chat not found") ∧
    require_chat_by_id 7 1
        { chats := [{ id := 1, user1_id := 1, user2_id := 2, created_at := 0 }],
          messages := [], friendships := [], cache := [],
          next_chat_id := 2, next_msg_id := 1 } =
      Except.error (PyErr.http 404 "Chat not found") :=
  ⟨(c10_uniform_not_found 1 3 _ (Or.inr (by decide))).1,
   (c10_uniform_not_found 7 1 _ (Or.inl (by decide))).1⟩

/-! ## C2: the return value of send_personal -/

/-- Counterexample to claim C2: with no live local connection for user 5 and a
successful publish, `send_personal` publishes to the bus channel but returns
true, not false as the claim requires. -/
theorem c2_counterexample_publish_returns_true :
    send_personal [] 5 true true = (true, SendOutcome.published) := by decide

/-- Amended claim C2: `send_personal` writes directly exactly when a live
local connection exists and publishes to the user bus channel otherwise; it
returns true whenever the attempted transport call does not raise — on the
publish path as well as on the local-write path — and false only when the
attempted call raises. -/
theorem c2_send_personal_return (active : List Nat) (user_id : Nat)
    (writeOk publishOk : Bool) :
    (user_id ∈ active →
      send_personal active user_id writeOk publishOk =
        (writeOk, if writeOk then SendOutcome.localWrite else SendOutcome.raisedLocal)) ∧
    (user_id ∉ active →
      send_personal active user_id writeOk publishOk =
        (publishOk, if publishOk then SendOutcome.published else SendOutcome.raisedPublish)) := by
  constructor
  · intro hmem
    unfold send_personal
    rw [if_pos hmem]
    cases writeOk <;> simp
  · intro hmem
    unfold send_personal
    rw [if_neg hmem]
    cases publishOk <;> simp

/-- Witness for C2 (amended): user 3 has a live local connection and the
write succeeds, so the call reports a local write and returns true. -/
theorem c2_send_personal_return_witness :
    send_personal [3] 3 true true = (true, SendOutcome.localWrite) :=
  (c2_send_personal_return [3] 3 true true).1 (by decide)

/-! ## C4: the friendship cache is never invalidated -/

/-- Store with an accepted link between users 1 and 2 and an empty cache. -/
def c4_start : ChatState :=
  { chats := [], messages := [],
    friendships := [{ user_id := 1, friend_id := 2, status := FriendshipStatus.ACCEPTED }],
    cache := [], next_chat_id := 1, next_msg_id := 1 }

/-- The same store after one gate check cached the accepted pair. -/
def c4_cached : ChatState :=
  { c4_start with cache := [((1, 2), FriendshipStatus.ACCEPTED)] }

/-- The cached store after the external relationship store moved the link
from ACCEPTED to BLOCKED; the module-level cache still holds the stale entry. -/
def c4_blocked : ChatState :=
  { c4_cached with
    friendships := [{ user_id := 1, friend_id := 2, status := FriendshipStatus.BLOCKED }] }

/-- Claim C4 evaluated at its failing input: one successful check caches the
accepted pair; after the link transitions to BLOCKED in the store, the next
check still succeeds from the stale cache instead of raising the 403
authorization error the claim requires, even though every row of the store
now says BLOCKED. -/
theorem c4_stale_cache_authorizes :
    get_friendship_status 1 2 c4_start =
      Except.ok (FriendshipStatus.ACCEPTED, c4_cached) ∧
    get_friendship_status 1 2 c4_blocked =
      Except.ok (FriendshipStatus.ACCEPTED, c4_blocked) ∧
    (∀ f ∈ c4_blocked.friendships, f.status = FriendshipStatus.BLOCKED) := by
  refine ⟨rfl, rfl, by decide⟩

/-! ## C1: status monotonicity of the two transitions -/

/-- Message already at READ, with its delivery and read timestamps set. -/
def c1_msg : Message :=
  { id := 1, chat_id := 1, sender_id := 2, content := "hi", type := "text",
    reply_to_id := none, status := MessageStatus.READ, created_at := 1,
    delivered_at := some 2, read_at := some 3 }

/-- Counterexample to claim C1: the delivered-status upgrade inside
sendMessage, applied to a message whose current status READ is above the
target DELIVERED, is not a no-op — it rewrites the status back to DELIVERED
and restamps the delivery timestamp. -/
theorem c1_counterexample_read_downgraded :
    statusRank MessageStatus.DELIVERED ≤ statusRank c1_msg.status ∧
    update_status_fn [c1_msg] 1 9 =
      [{ c1_msg with status := MessageStatus.DELIVERED, delivered_at := some 9 }] ∧
    MessageStatus.DELIVERED ≠ MessageStatus.READ := by
  refine ⟨by decide, by decide, by decide⟩

theorem update_status_fn_mem {msgs : List Message} {m : Message} {mid mnow : Nat}
    (hm : m ∈ msgs) (hid : m.id = mid) :
    { m with status := MessageStatus.DELIVERED, delivered_at := some mnow } ∈
      update_status_fn msgs mid mnow := by
  have hbeq : (m.id == mid) = true := by
    rw [hid]
    exact beq_self_eq_true mid
  have hstep : (fun mm : Message =>
      if mm.id == mid then
        { mm with status := MessageStatus.DELIVERED, delivered_at := some mnow }
      else mm) m =
      { m with status := MessageStatus.DELIVERED, delivered_at := some mnow } := by
    simp only [hbeq, if_true]
  exact hstep ▸ List.mem_map_of_mem _ hm

/-- Amended claim C1: the read transition of markRead is monotonic — a
message already at READ is left in the store unchanged, status and timestamps
included — but the delivered upgrade inside sendMessage is unconditional: for
the row with the matching id it sets status DELIVERED and restamps
`delivered_at` regardless of the current status, so applied to a READ row it
moves that row back to DELIVERED. -/
theorem c1_transition_monotonicity (chat_id user_id : Nat) (st : ChatState)
    (now : Nat) :
    (∀ m ∈ st.messages, m.status = MessageStatus.READ →
      m ∈ (mark_as_read chat_id user_id st now).2.messages) ∧
    (∀ msgs : List Message, ∀ mid mnow : Nat, ∀ m ∈ msgs, m.id = mid →
      { m with status := MessageStatus.DELIVERED, delivered_at := some mnow } ∈
        update_status_fn msgs mid mnow) := by
  constructor
  · intro m hm hread
    cases hreq : require_chat_by_id chat_id user_id st with
    | error e =>
      unfold mark_as_read
      rw [hreq]
      exact hm
    | ok p =>
      obtain ⟨chat, stc⟩ := p
      have hmsgs : stc.messages = st.messages :=
        (require_chat_by_id_fields hreq).2.1
      have hmem : m ∈ stc.messages := hmsgs ▸ hm
      have hrt : readTarget chat_id (otherOf chat user_id) m = false := by
        simp [readTarget, hread]
      have hkeep : (fun mm =>
          if readTarget chat_id (otherOf chat user_id) mm then stampRead now mm
          else mm) m = m := by
        simp only [hrt, Bool.false_eq_true, if_false]
      rw [mark_as_read_ok hreq now]
      by_cases hemp :
          (stc.messages.filter (readTarget chat_id (otherOf chat user_id))).isEmpty = true
      · rw [if_pos hemp]
        exact hmem
      · rw [if_neg hemp]
        exact hkeep ▸ List.mem_map_of_mem _ hmem
  · intro msgs mid mnow m hm hid
    exact update_status_fn_mem hm hid

/-- Witness for C1 (amended): in a store whose chat 1 links users 1 and 2
with one READ message from user 2, marking chat 1 read leaves the READ
message untouched; and the delivered upgrade applied to the same READ message
produces the downgraded DELIVERED row. -/
theorem c1_transition_monotonicity_witness :
    c1_msg ∈ (mark_as_read 1 1
        { chats := [{ id := 1, user1_id := 1, user2_id := 2, created_at := 0 }],
          messages := [c1_msg],
          friendships := [{ user_id := 1, friend_id := 2, status := FriendshipStatus.ACCEPTED }],
          cache := [], next_chat_id := 2, next_msg_id := 2 } 9).2.messages ∧
    { c1_msg with status := MessageStatus.DELIVERED, delivered_at := some 9 } ∈
      update_status_fn [c1_msg] 1 9 :=
  ⟨(c1_transition_monotonicity 1 1 _ 9).1 c1_msg (by decide) (by decide),
   (c1_transition_monotonicity 1 1
      { chats := [], messages := [], friendships := [], cache := [],
        next_chat_id := 1, next_msg_id := 1 } 9).2
    [c1_msg] 1 9 c1_msg (by decide) (by decide)⟩

/-! ## C3: a denied friendship gate leaves no partial side effects -/

/-- Store whose only link row for the pair (1,2) is BLOCKED, while the
module-level cache still holds a stale ACCEPTED entry for the pair. -/
def c3_stale : ChatState :=
  { chats := [], messages := [],
    friendships := [{ user_id := 1, friend_id := 2, status := FriendshipStatus.BLOCKED }],
    cache := [((1, 2), FriendshipStatus.ACCEPTED)],
    next_chat_id := 1, next_msg_id := 1 }

/-- Effect outcomes for an offline receiver with every transport healthy. -/
def c3_fx : SendFx :=
  { persistOk := true, pushOk := true, wsEcho := none,
    probe := Except.ok false, updateOk := true }

/-- Counterexample to claim C3: users 1 and 2 have no accepted link (their
only row is BLOCKED), yet sendMessage succeeds and creates both a Chat row
and a Message row, because the stale cache entry bypasses the store lookup. -/
theorem c3_counterexample_stale_cache_sends :
    (send_message "hi" "text" none 1 2 c3_stale c3_fx 4).1 =
      Except.ok (new_message "hi" "text" none 1 1 1 4) ∧
    (send_message "hi" "text" none 1 2 c3_stale c3_fx 4).2.chats =
      [{ id := 1, user1_id := 1, user2_id := 2, created_at := 4 }] ∧
    (send_message "hi" "text" none 1 2 c3_stale c3_fx 4).2.messages =
      [new_message "hi" "text" none 1 1 1 4] ∧
    (∀ f ∈ c3_stale.friendships, f.status ≠ FriendshipStatus.ACCEPTED) := by
  refine ⟨rfl, rfl, rfl, by decide⟩

/-- Amended claim C3: whenever the canonical pair is not in the friendship
cache and the store holds no accepted link for the pair in either
orientation, sendMessage raises the 403 authorization error and returns the
store completely unchanged — no Chat row, no Message row, and no cache
entry is created. -/
theorem c3_denied_no_side_effects (content mtype : String)
    (reply_to_id : Option Nat) (sender_id receiver_id : Nat) (st : ChatState)
    (fx : SendFx) (now : Nat)
    (hcache : st.cache.lookup (pairKey sender_id receiver_id) = none)
    (hstore : ∀ f ∈ st.friendships,
      (f.user_id = sender_id ∧ f.friend_id = receiver_id) ∨
      (f.user_id = receiver_id ∧ f.friend_id = sender_id) →
      f.status ≠ FriendshipStatus.ACCEPTED) :
    send_message content mtype reply_to_id sender_id receiver_id st fx now =
      (Except.error (PyErr.http 403 "Users are not friends"), st) := by
  have hgfs : get_friendship_status sender_id receiver_id st =
      Except.error (PyErr.http 403 "Users are not friends") := by
    unfold get_friendship_status
    rw [hcache]
    cases hf : st.friendships.find? (fun f =>
        (f.user_id == sender_id && f.friend_id == receiver_id) ||
        (f.user_id == receiver_id && f.friend_id == sender_id)) with
    | none => rfl
    | some f =>
      have hp := List.find?_some hf
      have hmem := List.mem_of_find?_eq_some hf
      simp only [Bool.or_eq_true, Bool.and_eq_true, beq_iff_eq] at hp
      have hne : f.status ≠ FriendshipStatus.ACCEPTED := hstore f hmem hp
      simp only [beq_eq_false_iff_ne.mpr hne, Bool.false_eq_true, if_false]
  have hgoc : get_or_create_chat sender_id receiver_id st now =
      Except.error (PyErr.http 403 "Users are not friends") := by
    unfold get_or_create_chat
    rw [hgfs]
  unfold send_message
  rw [hgoc]

/-- Witness for C3 (amended): a pending link and an empty cache make
sendMessage fail with 403 and leave the store untouched. -/
theorem c3_denied_no_side_effects_witness :
    send_message "hi" "text" none 1 2
      { chats := [], messages := [],
        friendships := [{ user_id := 1, friend_id := 2, status := FriendshipStatus.PENDING }],
        cache := [], next_chat_id := 1, next_msg_id := 1 } c3_fx 4 =
      (Except.error (PyErr.http 403 "Users are not friends"),
       { chats := [], messages := [],
         friendships := [{ user_id := 1, friend_id := 2, status := FriendshipStatus.PENDING }],
         cache := [], next_chat_id := 1, next_msg_id := 1 }) :=
  c3_denied_no_side_effects "hi" "text" none 1 2 _ c3_fx 4 rfl (by decide)

/-! ## C7: cursor pagination of get_messages -/

theorem get_messages_err {chat_id user_id : Nat} {st : ChatState} {e : PyErr}
    (hreq : require_chat_by_id chat_id user_id st = Except.error e)
    (limit : Nat) (before_id : Option Nat) :
    get_messages chat_id user_id st limit before_id = Except.error e := by
  unfold get_messages
  rw [hreq]

theorem get_messages_ok {chat_id user_id : Nat} {st : ChatState} {chat : Chat}
    {stc : ChatState}
    (hreq : require_chat_by_id chat_id user_id st = Except.ok (chat, stc))
    (limit : Nat) (before_id : Option Nat) :
    get_messages chat_id user_id st limit before_id =
      Except.ok (((sortDesc
        (match before_id with
         | some b =>
           if b == 0 then st.messages.filter (fun m => m.chat_id == chat_id)
           else (st.messages.filter (fun m => m.chat_id == chat_id)).filter
             (fun m => decide (m.id < b))
         | none => st.messages.filter (fun m => m.chat_id == chat_id))).take
          limit).reverse) := by
  unfold get_messages
  rw [hreq]

theorem mem_sortDesc {l : List Message} {m : Message} : m ∈ sortDesc l ↔ m ∈ l := by
  unfold sortDesc
  exact List.mem_insertionSort msgGE

theorem sortDesc_sorted (l : List Message) : List.Pairwise msgGE (sortDesc l) :=
  List.sorted_insertionSort msgGE l

theorem query_result_sorted (l : List Message) (limit : Nat) :
    List.Pairwise (fun m1 m2 : Message => m1.created_at ≤ m2.created_at)
      (((sortDesc l).take limit).reverse) := by
  rw [List.pairwise_reverse]
  exact (List.Pairwise.sublist (List.take_sublist limit (sortDesc l))
    (sortDesc_sorted l)).imp (fun h => h)

theorem query_result_length (l : List Message) (limit : Nat) :
    (((sortDesc l).take limit).reverse).length ≤ limit := by
  rw [List.length_reverse]
  exact List.length_take_le limit _

theorem query_result_mem {l : List Message} {limit : Nat} {m : Message}
    (h : m ∈ ((sortDesc l).take limit).reverse) : m ∈ l := by
  rw [List.mem_reverse] at h
  exact mem_sortDesc.mp (List.take_subset _ _ h)

/-- Message with id 1 in chat 1, sent by user 2. -/
def c7_msg : Message :=
  { id := 1, chat_id := 1, sender_id := 2, content := "hi", type := "text",
    reply_to_id := none, status := MessageStatus.SENT, created_at := 5,
    delivered_at := none, read_at := none }

/-- Store with chat 1 between accepted friends 1 and 2 holding one message. -/
def c7_st : ChatState :=
  { chats := [{ id := 1, user1_id := 1, user2_id := 2, created_at := 0 }],
    messages := [c7_msg],
    friendships := [{ user_id := 1, friend_id := 2, status := FriendshipStatus.ACCEPTED }],
    cache := [], next_chat_id := 2, next_msg_id := 2 }

/-- Counterexample to claim C7 at the cursor X = 0: the Python truthiness
test `if before_id:` treats 0 like None and disables the filter, so the call
returns a message whose id is not strictly less than 0 — the claim would
require the empty list. -/
theorem c7_counterexample_zero_cursor :
    get_messages 1 1 c7_st 50 (some 0) = Except.ok [c7_msg] ∧
    ¬ c7_msg.id < 0 := by
  refine ⟨rfl, by decide⟩

/-- Amended claim C7: for a member of the chat, `getMessages` with cursor X
returns only messages of that chat, at most `limit` of them, in ascending
`created_at` order; every returned message has id strictly below X whenever
X is nonzero, but the cursor X = 0 is treated exactly like passing no cursor
(the filter is skipped), not as an empty query. -/
theorem c7_pagination (chat_id user_id : Nat) (st : ChatState) (limit b : Nat)
    (msgs : List Message)
    (h : get_messages chat_id user_id st limit (some b) = Except.ok msgs) :
    (∀ m ∈ msgs, m.chat_id = chat_id) ∧
    (b ≠ 0 → ∀ m ∈ msgs, m.id < b) ∧
    msgs.length ≤ limit ∧
    List.Pairwise (fun m1 m2 : Message => m1.created_at ≤ m2.created_at) msgs ∧
    get_messages chat_id user_id st limit (some 0) =
      get_messages chat_id user_id st limit none := by
  cases hreq : require_chat_by_id chat_id user_id st with
  | error e =>
    rw [get_messages_err hreq limit (some b)] at h
    exact absurd h (by simp)
  | ok p =>
    obtain ⟨chat, stc⟩ := p
    rw [get_messages_ok hreq limit (some b)] at h
    simp only [Except.ok.injEq] at h
    subst h
    have hzero : get_messages chat_id user_id st limit (some 0) =
        get_messages chat_id user_id st limit none := by
      rw [get_messages_ok hreq limit (some 0), get_messages_ok hreq limit none]
      rfl
    by_cases hb : b = 0
    · subst hb
      refine ⟨?_, ?_, query_result_length _ _, query_result_sorted _ _, hzero⟩
      · intro m hm
        have := query_result_mem (l :=
          st.messages.filter (fun m => m.chat_id == chat_id)) (by
            simpa using hm)
        exact beq_iff_eq.mp (List.mem_filter.mp this).2
      · intro hb0
        exact absurd rfl hb0
    · have hbne : (b == 0) = false := beq_eq_false_iff_ne.mpr hb
      refine ⟨?_, ?_, ?_, ?_, hzero⟩
      · intro m hm
        simp only [hbne, Bool.false_eq_true, if_false] at hm
        have hmem := query_result_mem (l :=
          (st.messages.filter (fun m => m.chat_id == chat_id)).filter
            (fun m => decide (m.id < b))) hm
        exact beq_iff_eq.mp
          (List.mem_filter.mp (List.mem_filter.mp hmem).1).2
      · intro _ m hm
        simp only [hbne, Bool.false_eq_true, if_false] at hm
        have hmem := query_result_mem (l :=
          (st.messages.filter (fun m => m.chat_id == chat_id)).filter
            (fun m => decide (m.id < b))) hm
        exact of_decide_eq_true (List.mem_filter.mp hmem).2
      · simp only [hbne, Bool.false_eq_true, if_false]
        exact query_result_length _ _
      · simp only [hbne, Bool.false_eq_true, if_false]
        exact query_result_sorted _ _

/-- Witness for C7 (amended) at cursor 5 on the one-message store: the
returned message belongs to chat 1, has id below 5, and the page respects
the limit. -/
theorem c7_pagination_witness :
    c7_msg.chat_id = 1 ∧ c7_msg.id < 5 ∧ ([c7_msg] : List Message).length ≤ 50 :=
  have h := c7_pagination 1 1 c7_st 50 5 [c7_msg] rfl
  ⟨h.1 c7_msg (by simp), h.2.1 (by decide) c7_msg (by simp), h.2.2.1⟩

/-! ## C5: markRead marks the other participant's messages and is idempotent -/

/-- Claim C5: for a member of an existing chat, markRead succeeds; afterwards
every message of the chat authored by the other participant has status READ;
every such message that was below READ got stamped with `read_at = now` via
`stampRead`; every message that was not a target (other chat, own message, or
already READ) is still present unchanged; and the operation is idempotent —
re-running it on the resulting store at any later time changes nothing and
raises no error. -/
theorem c5_mark_read_idempotent (chat_id user_id : Nat) (st : ChatState)
    (now : Nat) (chat : Chat) (stc : ChatState)
    (hreq : require_chat_by_id chat_id user_id st = Except.ok (chat, stc)) :
    (mark_as_read chat_id user_id st now).1 = Except.ok () ∧
    (∀ m ∈ (mark_as_read chat_id user_id st now).2.messages,
       m.chat_id = chat_id → m.sender_id = otherOf chat user_id →
       m.status = MessageStatus.READ) ∧
    (∀ m ∈ st.messages, readTarget chat_id (otherOf chat user_id) m = true →
       stampRead now m ∈ (mark_as_read chat_id user_id st now).2.messages) ∧
    (∀ m ∈ st.messages, readTarget chat_id (otherOf chat user_id) m = false →
       m ∈ (mark_as_read chat_id user_id st now).2.messages) ∧
    (∀ now2, mark_as_read chat_id user_id
        ((mark_as_read chat_id user_id st now).2) now2 =
      (Except.ok (), (mark_as_read chat_id user_id st now).2)) := by
  have hmsgs : stc.messages = st.messages := (require_chat_by_id_fields hreq).2.1
  have hchats : stc.chats = st.chats := (require_chat_by_id_fields hreq).1
  rw [mark_as_read_ok hreq now]
  by_cases hemp :
      (stc.messages.filter (readTarget chat_id (otherOf chat user_id))).isEmpty = true
  · rw [if_pos hemp]
    have hnone : ∀ m ∈ stc.messages,
        ¬ readTarget chat_id (otherOf chat user_id) m = true :=
      List.filter_eq_nil_iff.mp (List.isEmpty_iff.mp hemp)
    refine ⟨rfl, ?_, ?_, ?_, ?_⟩
    · intro m hm hc hs
      by_contra hstat
      exact hnone m hm (by simp [readTarget, hc, hs, hstat])
    · intro m hm htrue
      exact absurd htrue (hnone m (hmsgs ▸ hm))
    · intro m hm _
      exact hmsgs ▸ hm
    · intro now2
      have hreq2 : require_chat_by_id chat_id user_id stc = Except.ok (chat, stc) :=
        require_chat_by_id_after hreq hchats rfl
      rw [mark_as_read_ok hreq2 now2, if_pos hemp]
  · rw [if_neg hemp]
    refine ⟨rfl, ?_, ?_, ?_, ?_⟩
    · intro m hm hc hs
      obtain ⟨m0, hm0, heq⟩ := List.mem_map.mp hm
      by_cases hrt : readTarget chat_id (otherOf chat user_id) m0 = true
      · rw [if_pos hrt] at heq
        rw [← heq]
        rfl
      · rw [if_neg hrt] at heq
        subst heq
        by_contra hne
        exact hrt (by simp [readTarget, hc, hs, hne])
    · intro m hm htrue
      have hmem : m ∈ stc.messages := hmsgs ▸ hm
      have heq : (fun mm =>
          if readTarget chat_id (otherOf chat user_id) mm then stampRead now mm
          else mm) m = stampRead now m := by
        simp only [htrue, if_true]
      exact heq ▸ List.mem_map_of_mem _ hmem
    · intro m hm hfalse
      have hmem : m ∈ stc.messages := hmsgs ▸ hm
      have heq : (fun mm =>
          if readTarget chat_id (otherOf chat user_id) mm then stampRead now mm
          else mm) m = m := by
        simp only [hfalse, Bool.false_eq_true, if_false]
      exact heq ▸ List.mem_map_of_mem _ hmem
    · intro now2
      have hreq2 : require_chat_by_id chat_id user_id
          { stc with messages := stc.messages.map (fun m =>
              if readTarget chat_id (otherOf chat user_id) m then stampRead now m
              else m) } =
          Except.ok (chat, { stc with messages := stc.messages.map (fun m =>
              if readTarget chat_id (otherOf chat user_id) m then stampRead now m
              else m) }) :=
        require_chat_by_id_after hreq hchats rfl
      rw [mark_as_read_ok hreq2 now2]
      have hall : ∀ x ∈ stc.messages.map (fun m =>
          if readTarget chat_id (otherOf chat user_id) m then stampRead now m
          else m), ¬ readTarget chat_id (otherOf chat user_id) x = true := by
        intro x hx
        obtain ⟨m0, hm0, heq⟩ := List.mem_map.mp hx
        by_cases hrt : readTarget chat_id (otherOf chat user_id) m0 = true
        · rw [if_pos hrt] at heq
          rw [← heq]
          simp [readTarget, stampRead]
        · rw [if_neg hrt] at heq
          rw [← heq]
          exact hrt
      have hempty2 : ((stc.messages.map (fun m =>
          if readTarget chat_id (otherOf chat user_id) m then stampRead now m
          else m)).filter (readTarget chat_id (otherOf chat user_id))).isEmpty = true :=
        List.isEmpty_iff.mpr (List.filter_eq_nil_iff.mpr hall)
      rw [if_pos hempty2]

/-- Unread SENT message from user 2 in chat 1. -/
def c5_msg : Message :=
  { id := 1, chat_id := 1, sender_id := 2, content := "hi", type := "text",
    reply_to_id := none, status := MessageStatus.SENT, created_at := 5,
    delivered_at := none, read_at := none }

/-- Store with chat 1 between accepted friends 1 and 2 and one unread message. -/
def c5_st : ChatState :=
  { chats := [{ id := 1, user1_id := 1, user2_id := 2, created_at := 0 }],
    messages := [c5_msg],
    friendships := [{ user_id := 1, friend_id := 2, status := FriendshipStatus.ACCEPTED }],
    cache := [], next_chat_id := 2, next_msg_id := 2 }

/-- Witness for C5: user 1 marks chat 1 read; the unread message from user 2
is stamped READ at time 9, and repeating the call at time 11 returns the
store unchanged. -/
theorem c5_mark_read_idempotent_witness :
    (mark_as_read 1 1 c5_st 9).1 = Except.ok () ∧
    stampRead 9 c5_msg ∈ (mark_as_read 1 1 c5_st 9).2.messages ∧
    mark_as_read 1 1 ((mark_as_read 1 1 c5_st 9).2) 11 =
      (Except.ok (), (mark_as_read 1 1 c5_st 9).2) :=
  have h := c5_mark_read_idempotent 1 1 c5_st 9
    { id := 1, user1_id := 1, user2_id := 2, created_at := 0 }
    { c5_st with cache := [((1, 2), FriendshipStatus.ACCEPTED)] } (by rfl)
  ⟨h.1, h.2.2.1 c5_msg (by simp [c5_st]) (by decide), h.2.2.2.2 11⟩

/-! ## C6: one canonical chat per unordered user pair -/

theorem lowOf_eq_min (a b : Nat) : lowOf a b = min a b := by
  unfold lowOf
  rw [Nat.min_def]
  split <;> split <;> omega

theorem highOf_eq_max (a b : Nat) : highOf a b = max a b := by
  unfold highOf
  rw [Nat.max_def]
  split <;> split <;> omega

theorem lowOf_comm (a b : Nat) : lowOf a b = lowOf b a := by
  rw [lowOf_eq_min, lowOf_eq_min, Nat.min_comm]

theorem highOf_comm (a b : Nat) : highOf a b = highOf b a := by
  rw [highOf_eq_max, highOf_eq_max, Nat.max_comm]

theorem lowOf_le_highOf (a b : Nat) : lowOf a b ≤ highOf a b := by
  rw [lowOf_eq_min, highOf_eq_max]
  omega

theorem lowOf_lt_highOf {a b : Nat} (h : a ≠ b) : lowOf a b < highOf a b := by
  rw [lowOf_eq_min, highOf_eq_max]
  omega

theorem pairKey_eq (a b : Nat) : pairKey a b = (min a b, max a b) := by
  unfold pairKey
  split
  case _ h =>
    rw [min_eq_left h, max_eq_right h]
  case _ h =>
    have hba : b ≤ a := le_of_not_le h
    rw [min_eq_right hba, max_eq_left hba]

theorem pairKey_comm (a b : Nat) : pairKey a b = pairKey b a := by
  rw [pairKey_eq, pairKey_eq, Nat.min_comm, Nat.max_comm]

theorem get_friendship_status_comm (u1 u2 : Nat) (st : ChatState) :
    get_friendship_status u1 u2 st = get_friendship_status u2 u1 st := by
  unfold get_friendship_status
  rw [pairKey_comm]
  have hpred : (fun f : Friendship =>
      (f.user_id == u1 && f.friend_id == u2) ||
      (f.user_id == u2 && f.friend_id == u1)) =
      (fun f : Friendship =>
      (f.user_id == u2 && f.friend_id == u1) ||
      (f.user_id == u1 && f.friend_id == u2)) := by
    funext f
    exact Bool.or_comm _ _
  rw [hpred]

theorem get_or_create_chat_comm (u1 u2 : Nat) (st : ChatState) (now : Nat) :
    get_or_create_chat u1 u2 st now = get_or_create_chat u2 u1 st now := by
  unfold get_or_create_chat
  rw [get_friendship_status_comm]
  simp only [show lowOf u1 u2 = lowOf u2 u1 from lowOf_comm u1 u2,
             show highOf u1 u2 = highOf u2 u1 from highOf_comm u1 u2]

/-- Number of chat rows covering the unordered pair {a, b}. -/
def chatPairCount (st : ChatState) (a b : Nat) : Nat :=
  st.chats.countP (fun c =>
    (c.user1_id == a && c.user2_id == b) || (c.user1_id == b && c.user2_id == a))

theorem get_or_create_chat_ok {u1 u2 : Nat} {st : ChatState} {now : Nat}
    {s : FriendshipStatus} {stg : ChatState}
    (hg : get_friendship_status u1 u2 st = Except.ok (s, stg)) :
    get_or_create_chat u1 u2 st now =
      match stg.chats.find? (fun c =>
          c.user1_id == lowOf u1 u2 && c.user2_id == highOf u1 u2) with
      | some chat => Except.ok (chat, stg)
      | none =>
        Except.ok
          ({ id := stg.next_chat_id, user1_id := lowOf u1 u2,
             user2_id := highOf u1 u2, created_at := now },
           { stg with
              chats := stg.chats ++
                [{ id := stg.next_chat_id, user1_id := lowOf u1 u2,
                   user2_id := highOf u1 u2, created_at := now }],
              next_chat_id := stg.next_chat_id + 1 }) := by
  unfold get_or_create_chat
  rw [hg]

/-- Claim C6: a chat produced by `get_or_create_chat` for distinct users A
and B carries the pair in strictly ascending canonical order (`user1_id` is
the smaller id, `user2_id` the larger); the call commutes — `(B, A)` yields
the identical result; a repeated call returns the existing chat and the
unchanged store instead of creating another row; and the invariant that the
store holds canonically ordered rows with at most one chat per unordered
pair is preserved. -/
theorem c6_canonical_unique_chat (A B : Nat) (st : ChatState) (now : Nat)
    (chat : Chat) (st1 : ChatState) (hne : A ≠ B)
    (h : get_or_create_chat A B st now = Except.ok (chat, st1)) :
    chat.user1_id < chat.user2_id ∧
    chat.user1_id = min A B ∧ chat.user2_id = max A B ∧
    get_or_create_chat B A st now = Except.ok (chat, st1) ∧
    get_or_create_chat A B st1 now = Except.ok (chat, st1) ∧
    ((∀ c ∈ st.chats, c.user1_id ≤ c.user2_id) →
      (∀ c ∈ st1.chats, c.user1_id ≤ c.user2_id) ∧
      ((∀ a b, chatPairCount st a b ≤ 1) → ∀ a b, chatPairCount st1 a b ≤ 1)) := by
  cases hg : get_friendship_status A B st with
  | error e =>
    have herr : get_or_create_chat A B st now = Except.error e := by
      unfold get_or_create_chat
      rw [hg]
    rw [herr] at h
    exact absurd h (by simp)
  | ok p =>
    obtain ⟨s, stg⟩ := p
    have hchats : stg.chats = st.chats := (get_friendship_status_fields hg).1
    have hcomm : get_or_create_chat B A st now =
        get_or_create_chat A B st now :=
      (get_or_create_chat_comm A B st now).symm
    rw [get_or_create_chat_ok hg] at h
    have hB : get_or_create_chat B A st now = Except.ok (chat, st1) := by
      rw [hcomm, get_or_create_chat_ok hg]
      exact h
    cases hf : stg.chats.find? (fun c =>
        c.user1_id == lowOf A B && c.user2_id == highOf A B) with
    | some c =>
      rw [hf] at h
      simp only [Except.ok.injEq, Prod.mk.injEq] at h
      obtain ⟨hc, hst⟩ := h
      have hc2 : chat = c := hc.symm
      have hst2 : st1 = stg := hst.symm
      subst hc2
      subst hst2
      have hpred := List.find?_some hf
      simp only [Bool.and_eq_true, beq_iff_eq] at hpred
      obtain ⟨h1, h2⟩ := hpred
      have hlo : chat.user1_id = min A B := by rw [h1, lowOf_eq_min]
      have hhi : chat.user2_id = max A B := by rw [h2, highOf_eq_max]
      have hlt : chat.user1_id < chat.user2_id := by
        rw [h1, h2]
        exact lowOf_lt_highOf hne
      have hidem : get_or_create_chat A B st1 now = Except.ok (chat, st1) := by
        rw [get_or_create_chat_ok (get_friendship_status_stable hg), hf]
      refine ⟨hlt, hlo, hhi, hB, hidem, ?_⟩
      · intro hcan
        refine ⟨fun c hc => hcan c (hchats ▸ hc), fun huni a b => ?_⟩
        have : chatPairCount st1 a b = chatPairCount st a b := by
          unfold chatPairCount
          rw [hchats]
        rw [this]
        exact huni a b
    | none =>
      rw [hf] at h
      simp only [Except.ok.injEq, Prod.mk.injEq] at h
      obtain ⟨hc, hst⟩ := h
      have hlo : chat.user1_id = min A B := by rw [← hc, lowOf_eq_min]
      have hhi : chat.user2_id = max A B := by rw [← hc, highOf_eq_max]
      have hlt : chat.user1_id < chat.user2_id := by
        rw [← hc]
        exact lowOf_lt_highOf hne
      have hstchats : st1.chats = stg.chats ++ [chat] := by
        rw [← hst, ← hc]
      have hstcache : st1.cache = stg.cache := by
        rw [← hst]
      have hpredchat : (chat.user1_id == lowOf A B &&
          chat.user2_id == highOf A B) = true := by
        rw [← hc]
        simp
      have hgfs1 : get_friendship_status A B st1 = Except.ok (s, st1) := by
        apply get_friendship_status_cache_some
        rw [hstcache]
        exact get_friendship_status_ok_cache hg
      have hfind1 : st1.chats.find? (fun c =>
          c.user1_id == lowOf A B && c.user2_id == highOf A B) = some chat := by
        rw [hstchats, List.find?_append, hf]
        simp only [Option.none_or]
        exact List.find?_cons_of_pos _ hpredchat
      have hidem : get_or_create_chat A B st1 now = Except.ok (chat, st1) := by
        rw [get_or_create_chat_ok hgfs1, hfind1]
      refine ⟨hlt, hlo, hhi, hB, hidem, ?_⟩
      · intro hcan
        have hnone : ∀ c ∈ st.chats,
            ¬ (c.user1_id == lowOf A B && c.user2_id == highOf A B) = true := by
          rw [← hchats]
          exact List.find?_eq_none.mp hf
        constructor
        · intro c hcmem
          rw [hstchats, List.mem_append] at hcmem
          rcases hcmem with hold | hnew
          · exact hcan c (hchats ▸ hold)
          · rw [List.mem_singleton.mp hnew, ← hc]
            exact lowOf_le_highOf A B
        · intro huni a b
          have hsplit : chatPairCount st1 a b =
              chatPairCount st a b +
              (if (chat.user1_id == a && chat.user2_id == b) ||
                  (chat.user1_id == b && chat.user2_id == a) then 1 else 0) := by
            unfold chatPairCount
            rw [hstchats, hchats, List.countP_append, List.countP_cons,
              List.countP_nil, Nat.zero_add]
          by_cases hp : ((chat.user1_id == a && chat.user2_id == b) ||
              (chat.user1_id == b && chat.user2_id == a)) = true
          · have hzero : chatPairCount st a b = 0 := by
              unfold chatPairCount
              rw [List.countP_eq_zero]
              intro c hcmem hcp
              simp only [Bool.or_eq_true, Bool.and_eq_true, beq_iff_eq] at hcp hp
              have hccan : c.user1_id ≤ c.user2_id := hcan c hcmem
              have hcnot : ¬ (c.user1_id = lowOf A B ∧ c.user2_id = highOf A B) := by
                intro ⟨hx, hy⟩
                exact hnone c hcmem (by simp [hx, hy])
              have hlohi : lowOf A B ≤ highOf A B := lowOf_le_highOf A B
              simp only [Bool.and_eq_true, beq_iff_eq] at hpredchat
              obtain ⟨hc1, hc2⟩ := hpredchat
              omega
            rw [hsplit, hzero, if_pos hp]
          · rw [hsplit, if_neg hp]
            simpa using huni a b

/-- Empty chat store with an accepted link between users 1 and 2. -/
def c6_st0 : ChatState :=
  { chats := [], messages := [],
    friendships := [{ user_id := 1, friend_id := 2, status := FriendshipStatus.ACCEPTED }],
    cache := [], next_chat_id := 1, next_msg_id := 1 }

/-- Chat created for the pair called as (2, 1): stored canonically as (1, 2). -/
def c6_chat : Chat := { id := 1, user1_id := 1, user2_id := 2, created_at := 3 }

/-- The store after that first chat creation. -/
def c6_st1 : ChatState :=
  { chats := [c6_chat], messages := [],
    friendships := [{ user_id := 1, friend_id := 2, status := FriendshipStatus.ACCEPTED }],
    cache := [((1, 2), FriendshipStatus.ACCEPTED)], next_chat_id := 2, next_msg_id := 1 }

/-- Witness for C6: creating the chat as (2, 1) stores it as (1, 2); the call
from the other direction returns the identical result, and a repeated call
returns the existing chat without creating a second row. -/
theorem c6_canonical_unique_chat_witness :
    c6_chat.user1_id < c6_chat.user2_id ∧
    get_or_create_chat 1 2 c6_st0 3 = Except.ok (c6_chat, c6_st1) ∧
    get_or_create_chat 2 1 c6_st1 3 = Except.ok (c6_chat, c6_st1) :=
  have h := c6_canonical_unique_chat 2 1 c6_st0 3 c6_chat c6_st1 (by decide) (by rfl)
  ⟨h.1, h.2.2.2.1, h.2.2.2.2.1⟩

/-! ## C8: failures after durable persistence -/

/-- Store with an accepted link between users 1 and 2 and nothing else. -/
def c8_st : ChatState :=
  { chats := [], messages := [],
    friendships := [{ user_id := 1, friend_id := 2, status := FriendshipStatus.ACCEPTED }],
    cache := [], next_chat_id := 1, next_msg_id := 1 }

/-- Effect outcomes where the redis presence probe raises. -/
def c8_fx : SendFx :=
  { persistOk := true, pushOk := true, wsEcho := none,
    probe := Except.error (), updateOk := true }

/-- Counterexample to claim C8: the message is durably persisted, yet a
failure of the `is_online` presence probe (an unguarded redis call in
send_message, services.py line 124) propagates out of sendMessage, so the
call does not return the created message — the request fails even though the
message row remains in the store. -/
theorem c8_counterexample_probe_failure_surfaces :
    (send_message "hi" "text" none 1 2 c8_st c8_fx 4).1 =
      Except.error PyErr.uncaught ∧
    (send_message "hi" "text" none 1 2 c8_st c8_fx 4).2.messages =
      [new_message "hi" "text" none 1 1 1 4] := by
  refine ⟨rfl, rfl⟩

theorem send_message_echo_fail (content mtype : String)
    (reply_to_id : Option Nat) (sender_id receiver_id : Nat) {st : ChatState}
    {fx : SendFx} {now : Nat} {chat : Chat} {st1 : ChatState}
    (hchat : get_or_create_chat sender_id receiver_id st now =
      Except.ok (chat, st1))
    (hp : fx.persistOk = true) (hw : fx.wsEcho = some false) :
    send_message content mtype reply_to_id sender_id receiver_id st fx now =
      (Except.error PyErr.uncaught,
       persistedState st1 (new_message content mtype reply_to_id chat.id
         sender_id st1.next_msg_id now)) := by
  unfold send_message
  rw [hchat, hp, hw]
  rfl

theorem send_message_probe_fail (content mtype : String)
    (reply_to_id : Option Nat) (sender_id receiver_id : Nat) {st : ChatState}
    {fx : SendFx} {now : Nat} {chat : Chat} {st1 : ChatState} {u : Unit}
    (hchat : get_or_create_chat sender_id receiver_id st now =
      Except.ok (chat, st1))
    (hp : fx.persistOk = true) (hw : (fx.wsEcho == some false) = false)
    (hpr : fx.probe = Except.error u) :
    send_message content mtype reply_to_id sender_id receiver_id st fx now =
      (Except.error PyErr.uncaught,
       persistedState st1 (new_message content mtype reply_to_id chat.id
         sender_id st1.next_msg_id now)) := by
  unfold send_message
  rw [hchat, hp, hw, hpr]
  rfl

theorem send_message_ok_upd (content mtype : String)
    (reply_to_id : Option Nat) (sender_id receiver_id : Nat) {st : ChatState}
    {fx : SendFx} {now : Nat} {chat : Chat} {st1 : ChatState} {b : Bool}
    (hchat : get_or_create_chat sender_id receiver_id st now =
      Except.ok (chat, st1))
    (hp : fx.persistOk = true) (hw : (fx.wsEcho == some false) = false)
    (hpr : fx.probe = Except.ok b) (hbu : (b && fx.updateOk) = true) :
    send_message content mtype reply_to_id sender_id receiver_id st fx now =
      (Except.ok (new_message content mtype reply_to_id chat.id sender_id
         st1.next_msg_id now),
       { (persistedState st1 (new_message content mtype reply_to_id chat.id
           sender_id st1.next_msg_id now)) with
         messages := update_status_fn
           (persistedState st1 (new_message content mtype reply_to_id chat.id
             sender_id st1.next_msg_id now)).messages
           st1.next_msg_id now }) := by
  unfold send_message
  rw [hchat, hp, hw, hpr]
  simp only [hbu, if_true, Bool.false_eq_true, if_false]

theorem send_message_ok_plain (content mtype : String)
    (reply_to_id : Option Nat) (sender_id receiver_id : Nat) {st : ChatState}
    {fx : SendFx} {now : Nat} {chat : Chat} {st1 : ChatState} {b : Bool}
    (hchat : get_or_create_chat sender_id receiver_id st now =
      Except.ok (chat, st1))
    (hp : fx.persistOk = true) (hw : (fx.wsEcho == some false) = false)
    (hpr : fx.probe = Except.ok b) (hbu : (b && fx.updateOk) = false) :
    send_message content mtype reply_to_id sender_id receiver_id st fx now =
      (Except.ok (new_message content mtype reply_to_id chat.id sender_id
         st1.next_msg_id now),
       persistedState st1 (new_message content mtype reply_to_id chat.id
         sender_id st1.next_msg_id now)) := by
  unfold send_message
  rw [hchat, hp, hw, hpr]
  simp only [hbu, if_true, Bool.false_eq_true, if_false]

/-- Amended claim C8: once the Message is persisted it is never rolled back —
in every outcome the row (possibly upgraded to DELIVERED) is still in the
store — and failures of the receiver push (caught inside send_personal) or of
the delivered-status update (wrapped in try/except) never surface: in those
cases sendMessage still returns the created message.  But a failure of the
presence probe, or of the echo write on the sender's own websocket,
propagates out of sendMessage as an uncaught error after persistence. -/
theorem c8_post_persist (content mtype : String) (reply_to_id : Option Nat)
    (sender_id receiver_id : Nat) (st : ChatState) (fx : SendFx) (now : Nat)
    (chat : Chat) (st1 : ChatState)
    (hchat : get_or_create_chat sender_id receiver_id st now =
      Except.ok (chat, st1))
    (hp : fx.persistOk = true) :
    (∃ m, m ∈ (send_message content mtype reply_to_id sender_id receiver_id
        st fx now).2.messages ∧
      m.id = st1.next_msg_id ∧ m.chat_id = chat.id ∧
      m.sender_id = sender_id ∧ m.content = content) ∧
    (fx.wsEcho ≠ some false → ∀ b, fx.probe = Except.ok b →
      (send_message content mtype reply_to_id sender_id receiver_id
        st fx now).1 =
      Except.ok (new_message content mtype reply_to_id chat.id sender_id
        st1.next_msg_id now)) ∧
    ((fx.wsEcho = some false ∨ fx.probe = Except.error ()) →
      (send_message content mtype reply_to_id sender_id receiver_id
        st fx now).1 = Except.error PyErr.uncaught) ∧
    (∀ b1 b2,
      send_message content mtype reply_to_id sender_id receiver_id st
        { fx with pushOk := b1 } now =
      send_message content mtype reply_to_id sender_id receiver_id st
        { fx with pushOk := b2 } now) := by
  have hmem0 : new_message content mtype reply_to_id chat.id sender_id
      st1.next_msg_id now ∈
      (persistedState st1 (new_message content mtype reply_to_id chat.id
        sender_id st1.next_msg_id now)).messages :=
    List.mem_append_right _ (List.mem_singleton_self _)
  by_cases hw : fx.wsEcho = some false
  · have hres := send_message_echo_fail content mtype reply_to_id
      sender_id receiver_id hchat hp hw
    rw [hres]
    refine ⟨⟨_, hmem0, rfl, rfl, rfl, rfl⟩, ?_, fun _ => rfl, fun b1 b2 => rfl⟩
    intro hne
    exact absurd hw hne
  · have hwb : (fx.wsEcho == some false) = false := beq_eq_false_iff_ne.mpr hw
    cases hpr : fx.probe with
    | error u =>
      have hres := send_message_probe_fail content mtype reply_to_id
        sender_id receiver_id hchat hp hwb hpr
      rw [hres]
      refine ⟨⟨_, hmem0, rfl, rfl, rfl, rfl⟩, ?_, fun _ => rfl, fun b1 b2 => rfl⟩
      intro _ b hb
      exact absurd hb (by simp)
    | ok b =>
      by_cases hbu : (b && fx.updateOk) = true
      · have hres := send_message_ok_upd content mtype reply_to_id
          sender_id receiver_id hchat hp hwb hpr hbu
        rw [hres]
        refine ⟨?_, fun _ _ _ => rfl, ?_, fun b1 b2 => rfl⟩
        · exact ⟨_, update_status_fn_mem hmem0 rfl, rfl, rfl, rfl, rfl⟩
        · intro hbad
          rcases hbad with hbad | hbad
          · exact absurd hbad hw
          · exact absurd hbad (by simp)
      · have hbu2 : (b && fx.updateOk) = false := by
          cases hx : (b && fx.updateOk) with
          | true => exact absurd hx hbu
          | false => rfl
        have hres := send_message_ok_plain content mtype reply_to_id
          sender_id receiver_id hchat hp hwb hpr hbu2
        rw [hres]
        refine ⟨⟨_, hmem0, rfl, rfl, rfl, rfl⟩, fun _ _ _ => rfl, ?_,
          fun b1 b2 => rfl⟩
        intro hbad
        rcases hbad with hbad | hbad
        · exact absurd hbad hw
        · exact absurd hbad (by simp)

/-- Witness for C8 (amended): with the receiver offline and every transport
healthy, sendMessage returns the created SENT message. -/
theorem c8_post_persist_witness :
    (send_message "hi" "text" none 1 2 c8_st c3_fx 4).1 =
      Except.ok (new_message "hi" "text" none 1 1 1 4) :=
  (c8_post_persist "hi" "text" none 1 2 c8_st c3_fx 4
    { id := 1, user1_id := 1, user2_id := 2, created_at := 4 }
    { chats := [{ id := 1, user1_id := 1, user2_id := 2, created_at := 4 }],
      messages := [],
      friendships := [{ user_id := 1, friend_id := 2, status := FriendshipStatus.ACCEPTED }],
      cache := [((1, 2), FriendshipStatus.ACCEPTED)],
      next_chat_id := 2, next_msg_id := 1 }
    (by rfl) rfl).2.1 (by decide) false rfl

end PureSocial
